import Mathlib

/-!
Shallow embedding of `src/backbone.oauth2.js` (Backbone.OAuth2, v0.2.1).

The library keeps one credential record in two places:
  * localStorage under the single key `STORAGE_KEY` (via jStorage), modelled
    here as an `Option Cred` slot (the value stored under that one key);
  * the in-memory global `Backbone.OAuth2.state`, which in JavaScript can be
    `null` (initial value, and after the unauthenticated `revoke()` path),
    `false` (the default that `load()` returns when the storage key is
    absent, since `load()` is `$.jStorage.get(STORAGE_KEY, false)`), or the
    credential object.  This three-way distinction matters: reading a
    property of `null` throws a TypeError, while reading a property of
    `false` merely yields `undefined`.  It is modelled by `MemState`.

Every network operation (`access`, `refresh`, `revoke`) is embedded as a
function that takes the eventual HTTP outcome as an explicit parameter and
returns the post-state together with the list of emitted Backbone events and
the outbound requests issued.  Timestamps (`new Date().getTime()`) are passed
in as explicit `Int` parameters: `now` is the reading taken before the
request is sent, `now2` the reading taken inside the response callback.
-/

/-- The single localStorage key used by the library (`__oauth2`). -/
def STORAGE_KEY : String := "__oauth2"

/-- Interval between two scheduler ticks, in milliseconds (`AUTO_REFRESH_TIME`). -/
def AUTO_REFRESH_TIME : Int := 60000

/-- Threshold below which a tick requests a new token (`REFRESH_MAX_TIME`). -/
def REFRESH_MAX_TIME : Int := 600

/-- The credential record as stored and kept in memory: the JSON response
object extended with the `time` field stamped before the request.  The two
token fields are `Option` because the JSON may lack them (`undefined`);
`expires_in` is kept as the numeric value that `parseInt` yields. -/
structure Cred where
  access_token : Option String
  refresh_token : Option String
  token_type : String
  expires_in : Int
  scope : Option String
  time : Int
deriving DecidableEq, Repr

/-- The wire response of the access/refresh endpoints, before the `time`
field is added by the success callback. -/
structure WireResp where
  access_token : Option String
  refresh_token : Option String
  token_type : String
  expires_in : Int
  scope : Option String
deriving DecidableEq, Repr

/-- The success callback does `response.time = time` on the wire object. -/
def WireResp.withTime (r : WireResp) (t : Int) : Cred :=
  { access_token := r.access_token, refresh_token := r.refresh_token,
    token_type := r.token_type, expires_in := r.expires_in,
    scope := r.scope, time := t }

/-- The possible values of the in-memory global `Backbone.OAuth2.state`. -/
inductive MemState where
  | null
  | falseVal
  | cred (c : Cred)
deriving DecidableEq, Repr

/-- JavaScript runtime failures that the embedded code can raise.
`typeError` is reading a property of `null`. -/
inductive JSError where
  | typeError
deriving DecidableEq, Repr

/-- load(): `$.jStorage.get(STORAGE_KEY, false)` — the stored credential, or
the default `false` when the key is absent. -/
def load (storage : Option Cred) : MemState :=
  match storage with
  | some c => MemState.cred c
  | none => MemState.falseVal

/-- save(state, ttl): `$.jStorage.set(STORAGE_KEY, state)` followed by
`$.jStorage.setTTL(STORAGE_KEY, ttl)`: the new slot value and the TTL set. -/
def save (state : Cred) (ttl : Int) : Option Cred × Option Int :=
  (some state, some ttl)

/-- clear(): deletes STORAGE_KEY if present; idempotent, slot ends empty. -/
def clear (_storage : Option Cred) : Option Cred := none

/-- capitalize(str): `str.charAt(0).toUpperCase() + str.slice(1).toLowerCase()`
(ASCII case mapping suffices for the token types used on the wire). -/
def capitalize (s : String) : String :=
  match s.data with
  | [] => ""
  | c :: cs => String.mk (c.toUpper :: cs.map Char.toLower)

/-- JavaScript string conversion of a possibly-undefined value, as it happens
in string concatenation and form serialization: `undefined` prints as the
string `undefined`. -/
def jsStr : Option String → String
  | some s => s
  | none => "undefined"

/-- Per-instance configuration taken from the constructor options:
the three endpoint URLs plus the optional client credentials. -/
structure Config where
  accessUrl : String
  refreshUrl : String
  revokeUrl : String
  clientId : Option String
  clientSecret : Option String
deriving DecidableEq, Repr

/-- OAuth2.isAuthenticated(): reloads `state` from storage, then returns true
iff the state is neither `undefined` nor `null` and
`parseInt(state.expires_in) + state.time > time`.  When the state is the
`false` default, the property reads give `undefined`, the sum is `NaN`, and
the comparison is false, so only the credential case can return true.
Token presence is not inspected. -/
def isAuthenticated (storage : Option Cred) (now : Int) : Bool :=
  match load storage with
  | MemState.cred c => decide (c.expires_in + c.time > now)
  | _ => false

/-- OAuth2.expiresIn(): `(state.time + parseInt(state.expires_in)) - time`
when authenticated, `-1` otherwise.  Both time readings of the original are
taken at the single instant `now`. -/
def expiresIn (storage : Option Cred) (now : Int) : Int :=
  if isAuthenticated storage now then
    match load storage with
    | MemState.cred c => (c.time + c.expires_in) - now
    | _ => -1
  else
    -1

/-- What a single run of `triggerRefresh` (the scheduler tick installed by
the constructor when `autoRefresh` is on) does. -/
structure TickResult where
  refreshCalled : Bool
  rescheduled : Bool
deriving DecidableEq, Repr

/-- One tick of `triggerRefresh`: only inside `if(OAuth2.isAuthenticated())`
does it (a) call `auth.refresh()` when `OAuth2.expiresIn() < REFRESH_MAX_TIME`
and (b) re-arm `setTimeout(triggerRefresh, AUTO_REFRESH_TIME, auth)`.
When unauthenticated it does neither. -/
def triggerRefreshTick (storage : Option Cred) (now : Int) : TickResult :=
  if isAuthenticated storage now then
    { refreshCalled := decide (expiresIn storage now < REFRESH_MAX_TIME),
      rescheduled := true }
  else
    { refreshCalled := false, rescheduled := false }

/-- Payload of a `revoke` event: the success response body, or the jqXHR of a
failed attempt (only its status matters here). -/
inductive RevPayload where
  | body (b : String)
  | xhr (status : Nat)
deriving DecidableEq, Repr

/-- Payload of an `error` event: the literal message string used by
`refresh()` when nothing is stored, or the failed response / jqXHR
(represented by its status). -/
inductive ErrPayload where
  | msg (s : String)
  | xhr (status : Nat)
deriving DecidableEq, Repr

/-- Backbone events triggered by the library.  The code names the event
fired on a successful access or refresh `success`; the revoke paths fire
`revoke` and failures fire `error`. -/
inductive Event where
  | success (c : Cred)
  | revoke (p : Option RevPayload)
  | error (p : ErrPayload)
deriving DecidableEq, Repr

/-- The error message `refresh()` triggers when `load()` is falsy. -/
def noCredMsg : String :=
  "No authentication data found, please use the access method first."

/-- Outcome of an access or refresh HTTP request: the parsed JSON response,
or a transport/HTTP failure carrying the response status. -/
inductive HttpOutcome where
  | success (r : WireResp)
  | failure (status : Nat)
deriving DecidableEq, Repr

/-- The form body `refresh()` posts to `refreshUrl`.  `refresh_token` is
`Option` because `OAuth2.state.refresh_token` can evaluate to `undefined`. -/
structure RefreshReq where
  url : String
  grant_type : String
  client_id : Option String
  client_secret : Option String
  refresh_token : Option String
deriving DecidableEq, Repr

/-- The synchronous part of one `refresh()` invocation, up to (and
including) handing the request to `$.ajax`: either it raised a TypeError
while building the request data, or it issued exactly one request.  Either
way the events already triggered and the final `Backbone.OAuth2.state` are
recorded. -/
inductive RefreshSyncOutcome where
  | crashed (events : List Event) (mem : MemState) (e : JSError)
  | issued (events : List Event) (req : RefreshReq) (mem : MemState)
deriving DecidableEq, Repr

/-- Reading `OAuth2.state.refresh_token` while building the request data:
a TypeError on `null`, `undefined` on `false`, the field on a credential. -/
def getRefreshToken : MemState → Except JSError (Option String)
  | MemState.null => Except.error JSError.typeError
  | MemState.falseVal => Except.ok none
  | MemState.cred c => Except.ok c.refresh_token

/-- The synchronous prefix of `refresh()`: `if(load())` reassigns
`Backbone.OAuth2.state = load()`, otherwise it triggers the error event with
`noCredMsg` — and then, with no early return in either branch, it always
proceeds to build the request data (where `OAuth2.state.refresh_token` can
throw) and call `$.ajax` on `refreshUrl`. -/
def refreshSync (cfg : Config) (storage : Option Cred) (mem : MemState) :
    RefreshSyncOutcome :=
  let mem1 := if storage.isSome then load storage else mem
  let evs := if storage.isSome then [] else [Event.error (ErrPayload.msg noCredMsg)]
  match getRefreshToken mem1 with
  | Except.error e => RefreshSyncOutcome.crashed evs mem1 e
  | Except.ok rt =>
      RefreshSyncOutcome.issued evs
        { url := cfg.refreshUrl, grant_type := "refresh_token",
          client_id := cfg.clientId, client_secret := cfg.clientSecret,
          refresh_token := rt }
        mem1

/-- Number of outbound requests a synchronous refresh prefix issued. -/
def RefreshSyncOutcome.requestCount : RefreshSyncOutcome → Nat
  | RefreshSyncOutcome.crashed _ _ _ => 0
  | RefreshSyncOutcome.issued _ _ _ => 1

/-- Events triggered during the synchronous refresh prefix. -/
def RefreshSyncOutcome.events : RefreshSyncOutcome → List Event
  | RefreshSyncOutcome.crashed evs _ _ => evs
  | RefreshSyncOutcome.issued evs _ _ => evs

/-- The in-memory state after the synchronous refresh prefix. -/
def RefreshSyncOutcome.memAfter : RefreshSyncOutcome → MemState
  | RefreshSyncOutcome.crashed _ m _ => m
  | RefreshSyncOutcome.issued _ _ m => m

/-- Result of a complete operation on the credential state: the storage
slot, the TTL passed to `setTTL` if `save` ran, the in-memory state, the
events triggered, and how many requests went out. -/
structure OpResult where
  storage : Option Cred
  lastTTL : Option Int
  mem : MemState
  events : List Event
  requests : Nat
deriving DecidableEq, Repr

/-- A complete `refresh()` invocation: the synchronous prefix followed by
the success or error callback once the HTTP outcome arrives.  `now` is the
time captured before the request, `now2` the time inside the callback.
On success the callback stamps `response.time = now`, computes
`timediff = now2 - now`, overwrites `Backbone.OAuth2.state`, calls
`save(response, response.expires_in - timediff)` and triggers `success`.
On failure it only triggers `error`.  A TypeError in the prefix aborts the
invocation before any request. -/
def refresh (cfg : Config) (storage : Option Cred) (mem : MemState)
    (now now2 : Int) (http : HttpOutcome) : Except JSError OpResult :=
  match refreshSync cfg storage mem with
  | RefreshSyncOutcome.crashed _ _ e => Except.error e
  | RefreshSyncOutcome.issued evs _ mem1 =>
      match http with
      | HttpOutcome.success r =>
          let c := r.withTime now
          let saved := save c (r.expires_in - (now2 - now))
          Except.ok
            { storage := saved.1, lastTTL := saved.2, mem := MemState.cred c,
              events := evs ++ [Event.success c], requests := 1 }
      | HttpOutcome.failure st =>
          Except.ok
            { storage := storage, lastTTL := none, mem := mem1,
              events := evs ++ [Event.error (ErrPayload.xhr st)], requests := 1 }

/-- Two `refresh()` invocations on the same instance where the second one
starts while the response to the first is still pending: in the
single-threaded runtime the synchronous prefix of the first runs to
completion (its request is now in flight, storage untouched, only
`Backbone.OAuth2.state` possibly reassigned), then the synchronous prefix
of the second runs.  Returns the total number of outbound requests issued
before either response arrives. -/
def twoOverlappingRefreshRequests (cfg : Config) (storage : Option Cred)
    (mem : MemState) : Nat :=
  let first := refreshSync cfg storage mem
  let second := refreshSync cfg storage first.memAfter
  first.requestCount + second.requestCount

/-- The form body `access()` posts to `accessUrl`. -/
structure AccessReq where
  url : String
  grant_type : String
  client_id : Option String
  client_secret : Option String
  username : String
  password : String
deriving DecidableEq, Repr

/-- Result of an `access()` invocation.  `nestedRefreshInvoked` records that
the error callback of `access()` first calls `self.refresh()` (whose own
effects are those of `refresh` applied to the post-state). -/
structure AccessResult where
  storage : Option Cred
  lastTTL : Option Int
  mem : MemState
  events : List Event
  requests : List AccessReq
  nestedRefreshInvoked : Bool
deriving DecidableEq, Repr

/-- The network branch of `access()`: posts the password grant to
`accessUrl`; on success stamps `response.time = now`, computes
`timediff = now2 - now`, sets the state, calls
`save(response, response.expires_in - timediff)` and triggers `success`;
on failure calls `self.refresh()` and triggers `error`.  `mem1` is the
state as reassigned by the initial `isAuthenticated()` call. -/
def accessNetwork (cfg : Config) (storage : Option Cred) (mem1 : MemState)
    (username password : String) (now now2 : Int) (http : HttpOutcome) :
    AccessResult :=
  let req : AccessReq :=
    { url := cfg.accessUrl, grant_type := "password",
      client_id := cfg.clientId, client_secret := cfg.clientSecret,
      username := username, password := password }
  match http with
  | HttpOutcome.success r =>
      let c := r.withTime now
      let saved := save c (r.expires_in - (now2 - now))
      { storage := saved.1, lastTTL := saved.2, mem := MemState.cred c,
        events := [Event.success c], requests := [req],
        nestedRefreshInvoked := false }
  | HttpOutcome.failure st =>
      { storage := storage, lastTTL := none, mem := mem1,
        events := [Event.error (ErrPayload.xhr st)], requests := [req],
        nestedRefreshInvoked := true }

/-- A complete `access(username, password)` invocation.  It first calls
`Backbone.OAuth2.isAuthenticated()` (which reassigns the in-memory state to
`load()`); if that is true it triggers `success` with the (re)loaded
credential and returns early without any request; otherwise it captures the
time and runs the network branch. -/
def access (cfg : Config) (storage : Option Cred)
    (username password : String) (now now2 : Int) (http : HttpOutcome) :
    AccessResult :=
  match storage with
  | some c =>
      if isAuthenticated (some c) now then
        { storage := some c, lastTTL := none, mem := MemState.cred c,
          events := [Event.success c], requests := [],
          nestedRefreshInvoked := false }
      else
        accessNetwork cfg (some c) (MemState.cred c) username password now now2 http
  | none =>
      accessNetwork cfg none MemState.falseVal username password now now2 http

/-- The body and Authorization header `revoke()` posts to `revokeUrl`. -/
structure RevokeReq where
  url : String
  token : String
  token_type_hint : String
  authHeader : String
deriving DecidableEq, Repr

/-- Outcome of the revoke HTTP request: the response body, or a failure with
the jqXHR status. -/
inductive RevokeHttp where
  | success (body : String)
  | failure (status : Nat)
deriving DecidableEq, Repr

/-- Result of a `revoke()` invocation. -/
structure RevokeResult where
  storage : Option Cred
  mem : MemState
  events : List Event
  requests : List RevokeReq
deriving DecidableEq, Repr

/-- A complete `revoke()` invocation.  When `OAuth2.isAuthenticated()` is
false: `clear()`, set `OAuth2.state = null`, trigger `revoke` with `null`,
return early (no request).  When authenticated: build the Authorization
header from the (re)loaded state, post to `revokeUrl`; the success callback
does `clear()` and triggers `revoke`; the error callback, when the status is
401, does `clear()` and triggers `revoke`, and then — with no else — always
triggers `error`. -/
def revoke (cfg : Config) (storage : Option Cred) (now : Int)
    (http : RevokeHttp) : RevokeResult :=
  match storage with
  | some c =>
      if isAuthenticated (some c) now then
        let header := capitalize c.token_type ++ " " ++ jsStr c.access_token
        let req : RevokeReq :=
          { url := cfg.revokeUrl, token := jsStr c.access_token,
            token_type_hint := "access_token", authHeader := header }
        match http with
        | RevokeHttp.success b =>
            { storage := clear (some c), mem := MemState.cred c,
              events := [Event.revoke (some (RevPayload.body b))],
              requests := [req] }
        | RevokeHttp.failure st =>
            if st = 401 then
              { storage := clear (some c), mem := MemState.cred c,
                events := [Event.revoke (some (RevPayload.xhr st)),
                           Event.error (ErrPayload.xhr st)],
                requests := [req] }
            else
              { storage := some c, mem := MemState.cred c,
                events := [Event.error (ErrPayload.xhr st)],
                requests := [req] }
      else
        { storage := clear (some c), mem := MemState.null,
          events := [Event.revoke none], requests := [] }
  | none =>
      { storage := clear none, mem := MemState.null,
        events := [Event.revoke none], requests := [] }

/-- Sample configuration used by concrete evaluations. -/
def cfgW : Config :=
  { accessUrl := "https://api.tld/v2/oauth/access",
    refreshUrl := "https://api.tld/v2/oauth/refresh",
    revokeUrl := "https://api.tld/v2/oauth/revoke",
    clientId := some "id", clientSecret := some "secret" }

/-- Sample stored credential with both tokens present, issued at time 0 with
lifetime 100: valid (per the code) at any instant before 100. -/
def credW : Cred :=
  { access_token := some "A", refresh_token := some "R",
    token_type := "bearer", expires_in := 100, scope := none, time := 0 }

/-- Sample credential with BOTH tokens absent but an unexpired lifetime. -/
def credNoTok : Cred :=
  { access_token := none, refresh_token := none,
    token_type := "bearer", expires_in := 100, scope := none, time := 0 }

/-- Wire response with lifetime 3600, used to probe the storage TTL. -/
def respA : WireResp :=
  { access_token := some "A", refresh_token := some "R",
    token_type := "bearer", expires_in := 3600, scope := none }

/-- Wire response identical to `respA` except for lifetime 7200. -/
def respB : WireResp :=
  { access_token := some "A", refresh_token := some "R",
    token_type := "bearer", expires_in := 7200, scope := none }

/-- C1 counterexample: the claim requires both tokens to be present for
`isAuthenticated()` to return true, but the code never inspects
`access_token` or `refresh_token`: a stored credential with both tokens
absent and an unexpired lifetime still makes `isAuthenticated()` true. -/
theorem isAuthenticated_ignores_token_presence :
    isAuthenticated (some credNoTok) 50 = true ∧
    credNoTok.access_token = none ∧ credNoTok.refresh_token = none := by
  decide

/-- C1 amended: `isAuthenticated()` is true iff a credential object is
loaded from storage and `parseInt(expires_in) + time > now` (strict, so it
is false exactly at the boundary instant); token presence plays no role,
and an empty storage slot is never authenticated. -/
theorem isAuthenticated_spec (c : Cred) (now : Int) :
    isAuthenticated (some c) now = decide (c.expires_in + c.time > now) ∧
    isAuthenticated none now = false ∧
    isAuthenticated (some c) (c.expires_in + c.time) = false := by
  refine ⟨rfl, rfl, ?_⟩
  simp [isAuthenticated, load]

/-- C2 counterexample: the claim says a tick taken while unauthenticated
still schedules the next tick; in the code the `setTimeout` re-arming the
tick sits inside `if(OAuth2.isAuthenticated())`, so an unauthenticated tick
does not reschedule and the polling loop self-terminates. -/
theorem tick_stops_when_unauthenticated :
    (triggerRefreshTick none 0).rescheduled = false ∧
    (triggerRefreshTick none 0).refreshCalled = false := by
  decide

/-- C2 amended: a tick calls `refresh()` exactly when `isAuthenticated()`
is true and `expiresIn() < REFRESH_MAX_TIME` (so never while
unauthenticated), but it reschedules the next tick exactly when
`isAuthenticated()` is true — an unauthenticated tick ends the polling. -/
theorem triggerRefreshTick_spec (storage : Option Cred) (now : Int) :
    (triggerRefreshTick storage now).rescheduled = isAuthenticated storage now ∧
    (triggerRefreshTick storage now).refreshCalled =
      (isAuthenticated storage now &&
        decide (expiresIn storage now < REFRESH_MAX_TIME)) := by
  by_cases h : isAuthenticated storage now = true
  · simp [triggerRefreshTick, h]
  · rw [Bool.not_eq_true] at h
    simp [triggerRefreshTick, h]

/-- C3 counterexample: with a valid stored credential, a second `refresh()`
arriving while the response to the first is still pending issues a second
outbound request — two requests total, not the claimed exactly one. -/
theorem overlapping_refresh_two_requests :
    twoOverlappingRefreshRequests cfgW (some credW) (MemState.cred credW) = 2 ∧
    twoOverlappingRefreshRequests cfgW (some credW) (MemState.cred credW) ≠ 1 := by
  decide

/-- C3 amended: `refresh()` has no mutual exclusion or pending flag at all:
whenever a credential can be loaded, every invocation issues its own
outbound request, so two overlapping invocations always issue two. -/
theorem refresh_no_coalescing (cfg : Config) (c : Cred) (mem : MemState) :
    twoOverlappingRefreshRequests cfg (some c) mem = 2 := rfl

/-- C4 counterexample: after constructing the manager over empty storage the
in-memory state is the `false` default, and `refresh()` then triggers the
no-credentials error but, lacking any early return, still issues the
outbound refresh request (with an undefined `refresh_token`). -/
theorem refresh_noCred_still_requests :
    (refreshSync cfgW none MemState.falseVal).events =
      [Event.error (ErrPayload.msg noCredMsg)] ∧
    (refreshSync cfgW none MemState.falseVal).requestCount = 1 := by
  decide

/-- C4 amended: when no credential can be loaded, `refresh()` triggers the
error event with the no-credentials message but does not return early: with
a non-null in-memory state it still issues the refresh request (the field
`refresh_token` being undefined or stale), and with a null in-memory state
it throws a TypeError before the request. -/
theorem refresh_noCred_spec (cfg : Config) (c : Cred) :
    refreshSync cfg none MemState.falseVal =
      RefreshSyncOutcome.issued [Event.error (ErrPayload.msg noCredMsg)]
        { url := cfg.refreshUrl, grant_type := "refresh_token",
          client_id := cfg.clientId, client_secret := cfg.clientSecret,
          refresh_token := none } MemState.falseVal ∧
    refreshSync cfg none (MemState.cred c) =
      RefreshSyncOutcome.issued [Event.error (ErrPayload.msg noCredMsg)]
        { url := cfg.refreshUrl, grant_type := "refresh_token",
          client_id := cfg.clientId, client_secret := cfg.clientSecret,
          refresh_token := c.refresh_token } (MemState.cred c) ∧
    refreshSync cfg none MemState.null =
      RefreshSyncOutcome.crashed [Event.error (ErrPayload.msg noCredMsg)]
        MemState.null JSError.typeError :=
  ⟨rfl, rfl, rfl⟩

/-- C5 counterexample: a revoke attempt answered with status 401 does clear
the stored credential and trigger `revoke`, but — because the 401 branch
has no early return — the error callback then also triggers `error`,
which a successful revoke never does. -/
theorem revoke_401_emits_error_event :
    Event.error (ErrPayload.xhr 401) ∈
      (revoke cfgW (some credW) 50 (RevokeHttp.failure 401)).events := by
  decide

/-- C5 amended: on a 401 revoke response the stored credential is deleted
and `revoke` is triggered as on success, but an `error` event is emitted as
well (the in-memory state keeps the old object; authentication is lost
because the storage slot is cleared). -/
theorem revoke_401_spec (cfg : Config) (c : Cred) (now : Int)
    (h : isAuthenticated (some c) now = true) :
    revoke cfg (some c) now (RevokeHttp.failure 401) =
      { storage := none, mem := MemState.cred c,
        events := [Event.revoke (some (RevPayload.xhr 401)),
                   Event.error (ErrPayload.xhr 401)],
        requests := [{ url := cfg.revokeUrl, token := jsStr c.access_token,
                       token_type_hint := "access_token",
                       authHeader := capitalize c.token_type ++ " " ++
                         jsStr c.access_token }] } := by
  simp [revoke, h, clear]

/-- C5 witness: the amended 401 behaviour evaluated on the sample
authenticated credential. -/
theorem revoke_401_spec_witness :
    isAuthenticated (some credW) 50 = true ∧
    revoke cfgW (some credW) 50 (RevokeHttp.failure 401) =
      { storage := none, mem := MemState.cred credW,
        events := [Event.revoke (some (RevPayload.xhr 401)),
                   Event.error (ErrPayload.xhr 401)],
        requests := [{ url := cfgW.revokeUrl, token := jsStr credW.access_token,
                       token_type_hint := "access_token",
                       authHeader := capitalize credW.token_type ++ " " ++
                         jsStr credW.access_token }] } :=
  ⟨by decide, revoke_401_spec cfgW credW 50 (by decide)⟩

/-- C6 counterexample: when not authenticated, `expiresIn()` returns the
sentinel `-1`, not the claimed sentinel `0`. -/
theorem expiresIn_sentinel_is_neg_one :
    expiresIn none 0 = -1 ∧ expiresIn none 0 ≠ 0 := by
  decide

/-- C6 amended: `expiresIn()` returns `time + expires_in - now` when the
validity condition holds and `-1` otherwise; when authenticated the value
is strictly positive, so it is never negative, and the unauthenticated
sentinel is `-1`. -/
theorem expiresIn_spec (c : Cred) (now : Int) :
    expiresIn (some c) now =
      (if c.expires_in + c.time > now then (c.time + c.expires_in) - now else -1) ∧
    (expiresIn (some c) now = -1 ∨ 0 < expiresIn (some c) now) ∧
    expiresIn none now = -1 := by
  by_cases h : c.expires_in + c.time > now
  · have e : expiresIn (some c) now = (c.time + c.expires_in) - now := by
      simp [expiresIn, isAuthenticated, load, h]
    exact ⟨by rw [e]; simp [h], Or.inr (by rw [e]; omega), rfl⟩
  · have e : expiresIn (some c) now = -1 := by
      simp [expiresIn, isAuthenticated, load, h]
    exact ⟨by rw [e]; simp [h], Or.inl e, rfl⟩

/-- C7: `access()` invoked while `isAuthenticated()` is true returns early:
it issues no request, stores nothing, and triggers the success event
carrying the credential just reloaded from storage. -/
theorem access_when_authenticated_noop (cfg : Config) (c : Cred)
    (u p : String) (now now2 : Int) (http : HttpOutcome)
    (h : isAuthenticated (some c) now = true) :
    access cfg (some c) u p now now2 http =
      { storage := some c, lastTTL := none, mem := MemState.cred c,
        events := [Event.success c], requests := [],
        nestedRefreshInvoked := false } := by
  simp [access, h]

/-- C7 witness: the authenticated short-circuit evaluated on the sample
credential at time 50. -/
theorem access_when_authenticated_noop_witness :
    isAuthenticated (some credW) 50 = true ∧
    access cfgW (some credW) "u" "p" 50 60 (HttpOutcome.failure 500) =
      { storage := some credW, lastTTL := none, mem := MemState.cred credW,
        events := [Event.success credW], requests := [],
        nestedRefreshInvoked := false } :=
  ⟨by decide,
   access_when_authenticated_noop cfgW credW "u" "p" 50 60
     (HttpOutcome.failure 500) (by decide)⟩

/-- C8: a `refresh()` whose HTTP request fails triggers only the `error`
event and leaves the stored credential untouched: same storage slot, no
`setTTL` call, in-memory state merely reloaded with the same credential. -/
theorem refresh_failure_frame (cfg : Config) (c : Cred) (mem : MemState)
    (now now2 : Int) (st : Nat) :
    refresh cfg (some c) mem now now2 (HttpOutcome.failure st) =
      Except.ok
        { storage := some c, lastTTL := none, mem := MemState.cred c,
          events := [Event.error (ErrPayload.xhr st)], requests := 1 } := rfl

/-- C9 counterexample: the TTL handed to `setTTL` after a successful
`access()` is `expires_in - timediff`, so two responses that differ only in
`expires_in` are stored with different TTLs — the storage TTL is tied to
the token lifetime, not an independent long-lived `storageTtl`. -/
theorem access_ttl_depends_on_expires_in :
    (access cfgW none "u" "p" 0 0 (HttpOutcome.success respA)).lastTTL = some 3600 ∧
    (access cfgW none "u" "p" 0 0 (HttpOutcome.success respB)).lastTTL = some 7200 ∧
    (access cfgW none "u" "p" 0 0 (HttpOutcome.success respA)).lastTTL ≠
      (access cfgW none "u" "p" 0 0 (HttpOutcome.success respB)).lastTTL := by
  decide

/-- C9 amended: a successful `access()` persists the credential in the
single storage slot (STORAGE_KEY) with TTL `expires_in - (now2 - now)`:
the TTL is derived from the token lifetime itself, not from an independent
long-lived storage TTL. -/
theorem access_persists_with_token_ttl (cfg : Config) (r : WireResp)
    (u p : String) (now now2 : Int) :
    access cfg none u p now now2 (HttpOutcome.success r) =
      { storage := some (r.withTime now),
        lastTTL := some (r.expires_in - (now2 - now)),
        mem := MemState.cred (r.withTime now),
        events := [Event.success (r.withTime now)],
        requests := [{ url := cfg.accessUrl, grant_type := "password",
                       client_id := cfg.clientId, client_secret := cfg.clientSecret,
                       username := u, password := p }],
        nestedRefreshInvoked := false } := rfl

/-- C10: an unauthenticated `revoke()` leaves the storage empty and the
in-memory state `null`; a subsequent `refresh()` then triggers the
no-credentials error but still evaluates `OAuth2.state.refresh_token`
while building the request body and aborts with a TypeError — it does not
complete without a null-access failure. -/
theorem refresh_after_unauth_revoke_crashes (cfg : Config) (now now2 : Int)
    (rhttp : RevokeHttp) (http : HttpOutcome) :
    revoke cfg none now rhttp =
      { storage := none, mem := MemState.null,
        events := [Event.revoke none], requests := [] } ∧
    refresh cfg none MemState.null now now2 http =
      Except.error JSError.typeError :=
  ⟨rfl, rfl⟩
